import Mathlib

/-!
Verification of the prompt-driven action dispatch protocol of the
`llm_ib_poc` repository (`src/app.py`, `src/ib.py`).

The embedding models Python values that can flow through the session loop
(`eval` results, tool parameters, outcome messages) as the inductive type
`PyVal`; the stateful session is explicit state passing over the
`is_connected : Bool` flag of `app.py:main` and the global broker handle
`ib : Option IBHandle` of `ib.py`.  External collaborators (the OpenAI
completion stream, the `ib_insync` broker calls, Python's `eval`) are
passed in as explicit arguments of `Except`-shaped oracle type, so that
an exception raised by an external call is an `Except.error` carrying the
Python exception message (`str(e)`).

Raised-and-uncaught Python exceptions are `Except.error` values; code that
catches an exception is code that pattern-matches on that `Except`.
-/

/-- A Python value as it can appear in an `eval`-uated model response or a
tool outcome.  Floats do not occur in the code paths the claims exercise,
so `num` models Python ints. -/
inductive PyVal where
  | str (s : String)
  | num (n : Int)
  | bool (b : Bool)
  | none
  | list (xs : List PyVal)
  | dict (kvs : List (String × PyVal))

/-- `create_response(result, message)` of `src/ib.py`: a dict with the two
keys `result` and `message`; `message` may be a string or structured data. -/
structure Outcome where
  result : String
  message : PyVal

/-- Python type names, used in `AttributeError` / `TypeError` message texts. -/
def pyTypeName : PyVal → String
  | .str _ => "str"
  | .num _ => "int"
  | .bool _ => "bool"
  | .none => "NoneType"
  | .list _ => "list"
  | .dict _ => "dict"

/-- Python truthiness (`if not actions:` in `src/app.py:main`). -/
def pyTruthy : PyVal → Bool
  | .str s => !(s == "")
  | .num n => !(n == 0)
  | .bool b => b
  | .none => false
  | .list xs => !xs.isEmpty
  | .dict kvs => !kvs.isEmpty

/-- `d.get(key, default)` on a Python dict: first binding of the key, or
the default.  (An `eval`-produced dict has unique keys, so taking the
first binding is faithful.) -/
def pyDictGet (kvs : List (String × PyVal)) (key : String) (dflt : PyVal) : PyVal :=
  match kvs.find? (fun p => p.1 == key) with
  | some p => p.2
  | Option.none => dflt

/-- `v.get(key, default)` on an arbitrary Python value: on a dict it looks
the key up, on anything else it raises `AttributeError` (used by
`response_data.get("actions", [])` and `action.get(...)` in `src/app.py`). -/
def pyGetAttr (v : PyVal) (key : String) (dflt : PyVal) : Except String PyVal :=
  match v with
  | .dict kvs => .ok (pyDictGet kvs key dflt)
  | other => .error ("'" ++ pyTypeName other ++ "' object has no attribute 'get'")

/-- `for action in actions:` — what Python iteration yields on each value:
lists yield their items, strings their one-character substrings, dicts
their keys; numbers, booleans and `None` raise `TypeError`. -/
def pyIterItems : PyVal → Except String (List PyVal)
  | .list xs => .ok xs
  | .str s => .ok (s.data.map (fun c => PyVal.str (String.mk [c])))
  | .dict kvs => .ok (kvs.map (fun p => PyVal.str p.1))
  | other => .error ("'" ++ pyTypeName other ++ "' object is not iterable")

/-- A registered capability as `src/app.py` sees it: it receives the
`parameters` value of the action (expanded as `tool(**params)`) and either
returns a `result`/`message` dict or raises.  Every tool registered in
`src/ib.py` returns such a dict. -/
def ToolFun : Type := PyVal → Except String Outcome

/-- The `TOOLS` mapping: tool name to capability, in registration order. -/
def Registry : Type := List (String × ToolFun)

/-- Name lookup in the registry (`tool_name not in TOOLS` / `TOOLS[tool_name]`). -/
def lookupTool (reg : Registry) (n : String) : Option ToolFun :=
  match reg.find? (fun p => p.1 == n) with
  | some p => some p.2
  | Option.none => Option.none

/-- `execute_tool(tool_name, params)` of `src/app.py` (lines 74-85).
`tool_name` is whatever `action.get("name")` produced, so it can be any
Python value:
* an unhashable name (list/dict) makes the membership test
  `tool_name not in TOOLS` itself raise `TypeError` — this is *outside*
  `execute_tool`'s `try`, so it propagates to the caller;
* any other unregistered name short-circuits to
  `{failed, "Unknown tool: <str(name)>"}` without touching any tool;
* a registered name invokes the tool, and any exception the invocation
  raises (including bad-parameter `TypeError`s from `tool(**params)`) is
  caught and converted to `{failed, "Error executing <name>: <msg>"}`. -/
def execute_tool (reg : Registry) (name params : PyVal) : Except String Outcome :=
  match name with
  | .str n =>
    match lookupTool reg n with
    | Option.none => .ok ⟨"failed", .str ("Unknown tool: " ++ n)⟩
    | some tool =>
      match tool params with
      | .ok r => .ok r
      | .error e => .ok ⟨"failed", .str ("Error executing " ++ n ++ ": " ++ e)⟩
  | .list _ => .error "unhashable type: 'list'"
  | .dict _ => .error "unhashable type: 'dict'"
  | .num n => .ok ⟨"failed", .str ("Unknown tool: " ++ toString n)⟩
  | .bool true => .ok ⟨"failed", .str ("Unknown tool: True")⟩
  | .bool false => .ok ⟨"failed", .str ("Unknown tool: False")⟩
  | .none => .ok ⟨"failed", .str ("Unknown tool: None")⟩

/-- Python `name == "s"` where `name` is an arbitrary value: string
comparison when `name` is a string, `False` otherwise. -/
def isStrEq (name : PyVal) (s : String) : Bool :=
  match name with
  | .str n => n == s
  | _ => false

/-- The connection-state update of `src/app.py:main` (lines 111-116): after
each dispatched action, `is_connected` is set true on a successful
`connect`, set false on a successful `disconnect`, and otherwise left as
it was. -/
def updateConn (name : PyVal) (out : Outcome) (conn : Bool) : Bool :=
  if isStrEq name "connect" then
    (if out.result == "success" then true else conn)
  else if isStrEq name "disconnect" then
    (if out.result == "success" then false else conn)
  else conn

/-- Result of running the `for action in actions:` loop of
`src/app.py:main`: the per-action `(tool_name, outcome)` pairs that were
printed, the final `is_connected` flag, and the exception message if an
exception escaped to the surrounding `except` (aborting the rest of the
plan; updates made before the exception stand). -/
structure RunState where
  results : List (PyVal × Outcome)
  conn : Bool
  err : Option String

/-- The action loop of `src/app.py:main` (lines 104-116).  For each item:
`action.get("name")` (default `None`) and `action.get("parameters", {})`
— raising `AttributeError` on a non-dict item — then `execute_tool`, then
the connection-state update. -/
def run_actions (reg : Registry) (items : List PyVal) (conn : Bool) : RunState :=
  match items with
  | [] => ⟨[], conn, Option.none⟩
  | it :: rest =>
    match pyGetAttr it "name" PyVal.none with
    | .error e => ⟨[], conn, some e⟩
    | .ok nameVal =>
      match pyGetAttr it "parameters" (PyVal.dict []) with
      | .error e => ⟨[], conn, some e⟩
      | .ok paramsVal =>
        match execute_tool reg nameVal paramsVal with
        | .error e => ⟨[], conn, some e⟩
        | .ok out =>
          let conn2 := updateConn nameVal out conn
          let s := run_actions reg rest conn2
          ⟨(nameVal, out) :: s.results, s.conn, s.err⟩

/-- What one turn of the session loop leaves behind: the dispatched
results, the final `is_connected`, the `Error processing response: <e>`
report if the turn's `try` caught an exception, and whether the turn
printed `No actions returned by the LLM.`. -/
structure TurnOutput where
  results : List (PyVal × Outcome)
  conn : Bool
  err : Option String
  noActions : Bool

/-- The `try:` block of `src/app.py:main` (lines 96-118), starting from the
result of `eval(ai_response)` (an `Except`: Python `eval` of model output
can raise).  `response_data.get("actions", [])` defaults a missing
`actions` key to the empty list; a falsy `actions` value prints
`No actions returned by the LLM.` and ends the turn; otherwise the action
loop runs and any exception it raises is caught and reported as
`Error processing response: <e>`. -/
def turn (reg : Registry) (evalRes : Except String PyVal) (conn : Bool) : TurnOutput :=
  match evalRes with
  | .error e => ⟨[], conn, some ("Error processing response: " ++ e), false⟩
  | .ok v =>
    match pyGetAttr v "actions" (PyVal.list []) with
    | .error e => ⟨[], conn, some ("Error processing response: " ++ e), false⟩
    | .ok actions =>
      if pyTruthy actions then
        match pyIterItems actions with
        | .error e => ⟨[], conn, some ("Error processing response: " ++ e), false⟩
        | .ok items =>
          let s := run_actions reg items conn
          ⟨s.results, s.conn, s.err.map (fun e => "Error processing response: " ++ e), false⟩
      else ⟨[], conn, Option.none, true⟩

/-- `re.sub('false', 'False', s)` of `src/app.py:call_openai` — the pattern
has no regex metacharacters, so this is the literal replacement of every
non-overlapping occurrence of `false`, scanning left to right. -/
def subFalse (s : List Char) : List Char :=
  match s with
  | [] => []
  | c :: cs =>
    if c = 'f' ∧ cs.take 4 = ['a', 'l', 's', 'e'] then
      'F' :: 'a' :: 'l' :: 's' :: 'e' :: subFalse (cs.drop 4)
    else
      c :: subFalse cs
termination_by s.length
decreasing_by
  · simp only [List.length_cons, List.length_drop]
    omega
  · simp only [List.length_cons]
    omega

/-- `re.sub('true', 'True', s)` of `src/app.py:call_openai`, likewise a
literal replace-all. -/
def subTrue (s : List Char) : List Char :=
  match s with
  | [] => []
  | c :: cs =>
    if c = 't' ∧ cs.take 3 = ['r', 'u', 'e'] then
      'T' :: 'r' :: 'u' :: 'e' :: subTrue (cs.drop 3)
    else
      c :: subTrue cs
termination_by s.length
decreasing_by
  · simp only [List.length_cons, List.length_drop]
    omega
  · simp only [List.length_cons]
    omega

/-- Simultaneous one-pass replacement, written from the words of the spec
claim: every occurrence of `false` becomes `False`, every occurrence of
`true` becomes `True`, and every character outside those occurrences is
copied unchanged. -/
def subBothSpec (s : List Char) : List Char :=
  match s with
  | [] => []
  | c :: cs =>
    if c = 'f' ∧ cs.take 4 = ['a', 'l', 's', 'e'] then
      'F' :: 'a' :: 'l' :: 's' :: 'e' :: subBothSpec (cs.drop 4)
    else if c = 't' ∧ cs.take 3 = ['r', 'u', 'e'] then
      'T' :: 'r' :: 'u' :: 'e' :: subBothSpec (cs.drop 3)
    else
      c :: subBothSpec cs
termination_by s.length
decreasing_by
  · simp only [List.length_cons, List.length_drop]
    omega
  · simp only [List.length_cons, List.length_drop]
    omega
  · simp only [List.length_cons]
    omega

/-- Python `s.lower()` (ASCII case folding suffices for the exit sentinel). -/
def pyLower (s : String) : String := String.mk (s.data.map Char.toLower)

/-- Python `s.strip()`: remove leading and trailing whitespace. -/
def pyStrip (s : String) : String :=
  String.mk (((s.data.dropWhile Char.isWhitespace).reverse.dropWhile Char.isWhitespace).reverse)

/-- The post-stream tail of `src/app.py:call_openai` (lines 67-72), taking
the concatenated streamed text as input: strip it, raise
`ValueError("Empty response from streaming LLM")` if it is empty, and
otherwise return it with the two boolean-token substitutions applied
(`false` first, then `true`). -/
def call_openai_text (raw : String) : Except String String :=
  let t := pyStrip raw
  if t = "" then .error "Empty response from streaming LLM"
  else .ok (String.mk (subTrue (subFalse t.data)))

/-- How one iteration of the `while True:` loop of `src/app.py:main` ends:
the operator typed the exit sentinel, an exception escaped `main` and
terminated the session, or the loop continues into the next iteration. -/
inductive TurnFate where
  | exited
  | crashed (msg : String)
  | continued (out : TurnOutput)

/-- One iteration of the session loop of `src/app.py:main` (lines 90-118),
with the streamed completion text `raw` and Python's `eval` supplied as
external collaborators.  `call_openai` is invoked *outside* the `try:`
block, so an exception it raises (the empty-response `ValueError`)
propagates out of `main`; everything from `eval` on is inside the `try:`
and is modelled by `turn`. -/
def session_turn (reg : Registry) (user_input raw : String)
    (evalFn : String → Except String PyVal) (conn : Bool) : TurnFate :=
  if pyLower user_input = "exit" then .exited
  else
    match call_openai_text raw with
    | .error e => .crashed e
    | .ok text => .continued (turn reg (evalFn text) conn)

/-- The external `ib_insync.IB` handle, reduced to the one observation
`src/ib.py` makes of it: `ib.isConnected()`. -/
structure IBHandle where
  isConnected : Bool

/-- `IB_HOST` (env default from `src/ib.py` line 8). -/
def IB_HOST : String := "127.0.0.1"

/-- `IB_PORT` (env default from `src/ib.py` line 9). -/
def IB_PORT : Nat := 7497

/-- `IB_CLIENT` (env default from `src/ib.py` line 10). -/
def IB_CLIENT : Nat := 1

/-- The guard `ib is None or not ib.isConnected()` shared by every
session-requiring tool of `src/ib.py`, as the positive condition
(an active broker session exists). -/
def sessionActive : Option IBHandle → Bool
  | Option.none => false
  | some h => h.isConnected

/-- The `failed` outcome every session-requiring tool returns when the
guard fires. -/
def notConnectedOutcome : Outcome :=
  ⟨"failed", .str "Not connected to IB TWS. Use 'connect' first."⟩

/-- `connect()` of `src/ib.py` (lines 22-38).  `ib = IB()` always installs
a fresh (disconnected) handle before the connection attempt, so even a
failed attempt leaves the global `ib` set; the external
`ib.connect(...)` call is the `ext` oracle. -/
def connectTool (ext : Except String Unit) : Outcome × Option IBHandle :=
  match ext with
  | .ok _ =>
    (⟨"success", .str ("Connected to IB TWS at " ++ IB_HOST ++ ":" ++ toString IB_PORT
        ++ " with client ID " ++ toString IB_CLIENT)⟩, some ⟨true⟩)
  | .error e => (⟨"failed", .str ("Failed to connect: " ++ e)⟩, some ⟨false⟩)

/-- `disconnect()` of `src/ib.py` (lines 43-56): succeeds and disconnects
the handle only when a handle exists and is connected; otherwise returns
the `failed` outcome and leaves the handle as it was. -/
def disconnectTool (ib : Option IBHandle) : Outcome × Option IBHandle :=
  match ib with
  | some h =>
    if h.isConnected then (⟨"success", .str "Disconnected from IB TWS"⟩, some ⟨false⟩)
    else (⟨"failed", .str "No active connection to disconnect"⟩, some h)
  | Option.none => (⟨"failed", .str "No active connection to disconnect"⟩, Option.none)

/-- `qualifyContracts(...)` of `src/ib.py` (lines 61-85).  `ext` is the
external `ib.qualifyContracts(contract)` call inside the `try`: it raises
(`.error`) or returns the list of qualified contracts. -/
def qualifyContracts (ib : Option IBHandle) (ext : Except String (List PyVal)) : Outcome :=
  if sessionActive ib then
    match ext with
    | .ok (c :: _) => ⟨"success", .dict [("contract", c)]⟩
    | .ok [] => ⟨"failed", .str "Contract qualification failed"⟩
    | .error e => ⟨"failed", .str e⟩
  else notConnectedOutcome

/-- The fields `src/ib.py:reqMktData` reads off the external ticker. -/
structure TickerData where
  bid : PyVal
  ask : PyVal
  last : PyVal
  volume : PyVal

/-- `reqMktData(...)` of `src/ib.py` (lines 90-120).  The
`ib.qualifyContracts(contract)` call on line 108 sits *outside* the
`try`, so an exception it raises propagates out of the tool
(`extQualify`); the `ib.reqMktData`/`ib.sleep` part inside the `try` is
`extTicker`. -/
def reqMktData (ib : Option IBHandle) (symbol : String)
    (extQualify : Except String Unit) (extTicker : Except String TickerData) :
    Except String Outcome :=
  if sessionActive ib then
    match extQualify with
    | .error e => .error e
    | .ok _ =>
      match extTicker with
      | .ok t => .ok ⟨"success", .dict [("symbol", .str symbol), ("bid", t.bid),
          ("ask", t.ask), ("last", t.last), ("volume", t.volume)]⟩
      | .error e => .ok ⟨"failed", .str e⟩
  else .ok notConnectedOutcome

/-- `placeOrder(...)` of `src/ib.py` (lines 125-153); like `reqMktData`,
the contract qualification on line 146 is outside the `try` and the
`ib.placeOrder` call inside it returns the order id and details. -/
def placeOrder (ib : Option IBHandle)
    (extQualify : Except String Unit) (extTrade : Except String (PyVal × PyVal)) :
    Except String Outcome :=
  if sessionActive ib then
    match extQualify with
    | .error e => .error e
    | .ok _ =>
      match extTrade with
      | .ok od => .ok ⟨"success", .dict [("orderId", od.1), ("details", od.2)]⟩
      | .error e => .ok ⟨"failed", .str e⟩
  else .ok notConnectedOutcome

/-- `positions(account)` of `src/ib.py` (lines 158-176); `ext` is the
external `ib.positions(account)` call inside the `try`, already mapped to
the per-position dicts the tool builds. -/
def positionsTool (ib : Option IBHandle) (ext : Except String (List PyVal)) : Outcome :=
  if sessionActive ib then
    match ext with
    | .ok ps => ⟨"success", .list ps⟩
    | .error e => ⟨"failed", .str e⟩
  else notConnectedOutcome

/-- `accountValues(account)` of `src/ib.py` (lines 181-199), same shape as
`positions`. -/
def accountValuesTool (ib : Option IBHandle) (ext : Except String (List PyVal)) : Outcome :=
  if sessionActive ib then
    match ext with
    | .ok vs => ⟨"success", .list vs⟩
    | .error e => ⟨"failed", .str e⟩
  else notConnectedOutcome

/-- One formal parameter as `inspect.signature` exposes it to
`get_tool_schema`: its name, the `__name__` of its annotation (`none`
when the annotation is `inspect.Parameter.empty`), and its default value
(`none` when there is no default). -/
structure ToolParam where
  name : String
  typeTag : Option String
  dflt : Option PyVal

/-- `str(v)` for the scalar values that appear as parameter defaults and
tool names.  (Container rendering follows Python `repr` only in outline;
no code path the claims exercise applies it to containers.) -/
def pyStrScalar : PyVal → String
  | .str s => s
  | .num n => toString n
  | .bool true => "True"
  | .bool false => "False"
  | .none => "None"
  | .list _ => "[...]"
  | .dict _ => "\x7b...\x7d"

/-- A capability's reflectable surface: its signature parameters and its
docstring (`none` when the function has no docstring). -/
structure Capability where
  params : List ToolParam
  docstring : Option String

/-- One entry of the `params` list built by `src/app.py:get_tool_schema`
(lines 20-23): `"<name> (<type>[, default '<default>'])"`. -/
def renderParam (p : ToolParam) : String :=
  p.name ++ " ("
    ++ (match p.typeTag with | some t => t | Option.none => "unknown")
    ++ (match p.dflt with
        | some d => ", default '" ++ pyStrScalar d ++ "'"
        | Option.none => "")
    ++ ")"

/-- `', '.join(ss)`. -/
def joinComma : List String → String
  | [] => ""
  | [s] => s
  | s :: ss => s ++ ", " ++ joinComma ss

/-- Python `s.split()`: split on runs of whitespace, dropping empty pieces.
`acc` holds the characters of the word currently being read, reversed. -/
def pyWordsAux (acc : List Char) : List Char → List (List Char)
  | [] => if acc.isEmpty then [] else [acc.reverse]
  | c :: cs =>
    if c.isWhitespace then
      if acc.isEmpty then pyWordsAux [] cs else acc.reverse :: pyWordsAux [] cs
    else pyWordsAux (c :: acc) cs

/-- Python `s.split()` on the characters of `s`. -/
def pyWords (s : List Char) : List (List Char) := pyWordsAux [] s

/-- `' '.join(ws)`. -/
def pyJoinWords : List (List Char) → List Char
  | [] => []
  | [w] => w
  | w :: ws => w ++ ' ' :: pyJoinWords ws

/-- `" ".join(docstring.split())` of `src/app.py:get_tool_schema` line 26:
collapse every run of whitespace to a single space and drop leading and
trailing whitespace. -/
def normalizeWsStr (s : String) : String := String.mk (pyJoinWords (pyWords s.data))

/-- `inspect.getdoc(tool_func) or "No description available."`: a missing
or empty docstring falls back to the default text. -/
def docOrDefault : Option String → String
  | Option.none => "No description available."
  | some d => if d = "" then "No description available." else d

/-- `get_tool_schema(tool_name, tool_func)` of `src/app.py` (lines 16-27):
`"<name>: Parameters: <params or 'No parameters'>. <normalized doc>"`. -/
def get_tool_schema (tool_name : String) (c : Capability) : String :=
  tool_name ++ ": Parameters: "
    ++ (if c.params.isEmpty then "No parameters"
        else joinComma (c.params.map renderParam))
    ++ ". " ++ normalizeWsStr (docOrDefault c.docstring)

/-- The parameter list as the spec words it: the comma-joined parameter
descriptors, with `No parameters` substituted when the list is empty. -/
def describeParamsSpec : List ToolParam → String
  | [] => "No parameters"
  | [p] => renderParam p
  | p :: ps => renderParam p ++ ", " ++ describeParamsSpec ps

/-- The whole rendering as the spec words it:
`"<name>: Parameters: <p1> (<type>[, default '<default>']), .... <description>"`. -/
def describeSpec (tool_name : String) (c : Capability) : String :=
  tool_name ++ ": Parameters: " ++ describeParamsSpec c.params ++ ". "
    ++ normalizeWsStr (docOrDefault c.docstring)

/-- Two adjacent whitespace characters somewhere in the list — the thing
whitespace normalization must rule out. -/
def hasDoubleWs : List Char → Bool
  | a :: b :: rest => (a.isWhitespace && b.isWhitespace) || hasDoubleWs (b :: rest)
  | _ => false

/-! ## Helper lemmas -/

theorem isStrEq_of_ne (name : PyVal) (s : String) (h : name ≠ PyVal.str s) :
    isStrEq name s = false := by
  cases name with
  | str n =>
    have : n ≠ s := fun hn => h (by rw [hn])
    simp [isStrEq, this]
  | num n => rfl
  | bool b => rfl
  | none => rfl
  | list xs => rfl
  | dict kvs => rfl

theorem updateConn_of_not_success (name : PyVal) (out : Outcome) (conn : Bool)
    (h : out.result ≠ "success") : updateConn name out conn = conn := by
  have hb : (out.result == "success") = false := by simpa using h
  unfold updateConn
  rw [hb]
  by_cases h1 : isStrEq name "connect" = true
  · simp [h1]
  · by_cases h2 : isStrEq name "disconnect" = true
    · simp [h1, h2]
    · simp [h1, h2]

/-! ## C1 -/

/-- C1: the claim says a response object lacking the `actions` key makes the
turn fail with `MalformedPlan`.  The code instead defaults the missing key
to `[]`, so the turn reports `No actions returned by the LLM.` and raises
nothing — amended accordingly: an object without an `actions` binding
yields a turn with no dispatched action, no error, the `no actions`
report, and an unchanged connection flag. -/
theorem C1_missing_actions_is_empty_plan (reg : Registry)
    (kvs : List (String × PyVal)) (conn : Bool)
    (h : kvs.find? (fun p => p.1 == "actions") = Option.none) :
    turn reg (Except.ok (PyVal.dict kvs)) conn =
      ⟨[], conn, Option.none, true⟩ := by
  simp [turn, pyGetAttr, pyDictGet, h, pyTruthy]

/-- C1 witness: the concrete object `{'foo': 1}` has no `actions` key and
the turn treats it as an empty plan. -/
theorem C1_missing_actions_witness :
    turn ([] : Registry) (Except.ok (PyVal.dict [("foo", PyVal.num 1)])) false =
      ⟨[], false, Option.none, true⟩ :=
  C1_missing_actions_is_empty_plan [] [("foo", PyVal.num 1)] false rfl

/-- C1 counterexample: on `{'foo': 1}` — interpretable as an object, no
`actions` key — the turn raises no error (`err = none`) and instead
reports the empty plan, contradicting `fails with MalformedPlan`. -/
theorem C1_counterexample :
    (turn ([] : Registry) (Except.ok (PyVal.dict [("foo", PyVal.num 1)])) false).err
        = Option.none
    ∧ (turn ([] : Registry) (Except.ok (PyVal.dict [("foo", PyVal.num 1)])) false).noActions
        = true :=
  ⟨rfl, rfl⟩

/-! ## C3 -/

/-- C3: the claim says an actions item lacking a `name` key makes parsing
fail with `MalformedPlan`.  The code instead dispatches the item with
`action.get("name") = None`, which `execute_tool` rejects as
`Unknown tool: None` — amended accordingly: the item produces that failed
outcome, the connection flag is untouched by it, and the remaining items
are still processed. -/
theorem C3_missing_name_dispatched_as_none (reg : Registry)
    (kvs : List (String × PyVal)) (rest : List PyVal) (conn : Bool)
    (h : kvs.find? (fun p => p.1 == "name") = Option.none) :
    run_actions reg (PyVal.dict kvs :: rest) conn =
      ⟨(PyVal.none, ⟨"failed", PyVal.str "Unknown tool: None"⟩)
          :: (run_actions reg rest conn).results,
        (run_actions reg rest conn).conn,
        (run_actions reg rest conn).err⟩ := by
  have hname : pyDictGet kvs "name" PyVal.none = PyVal.none := by
    simp [pyDictGet, h]
  simp [run_actions, pyGetAttr, hname, execute_tool, updateConn, isStrEq]

/-- C3 witness: a one-item plan whose item is `{'parameters': {}}`. -/
theorem C3_missing_name_witness :
    run_actions ([] : Registry) [PyVal.dict [("parameters", PyVal.dict [])]] false =
      ⟨[(PyVal.none, ⟨"failed", PyVal.str "Unknown tool: None"⟩)], false, Option.none⟩ :=
  C3_missing_name_dispatched_as_none [] [("parameters", PyVal.dict [])] [] false rfl

/-- C3 counterexample: for the response `{'actions': [{'parameters': {}}]}`
— whose single item lacks a `name` — the turn raises no error and the
item *is* dispatched, yielding `{failed, 'Unknown tool: None'}`,
contradicting `parsing fails with MalformedPlan`. -/
theorem C3_counterexample :
    (turn ([] : Registry)
        (Except.ok (PyVal.dict
          [("actions", PyVal.list [PyVal.dict [("parameters", PyVal.dict [])]])]))
        false).err = Option.none
    ∧ (turn ([] : Registry)
        (Except.ok (PyVal.dict
          [("actions", PyVal.list [PyVal.dict [("parameters", PyVal.dict [])]])]))
        false).results
        = [(PyVal.none, ⟨"failed", PyVal.str "Unknown tool: None"⟩)] :=
  ⟨rfl, rfl⟩

/-! ## C4 -/

/-- C4: after each executed action, the connection flag is set true exactly
by a successful `connect`, set false exactly by a successful
`disconnect`, and left unchanged by any other name and by any
unsuccessful outcome. -/
theorem C4_connection_flag_update (reg : Registry) (name params : PyVal)
    (out : Outcome) (conn : Bool)
    (hexec : execute_tool reg name params = Except.ok out) :
    (name = PyVal.str "connect" → out.result = "success" →
        updateConn name out conn = true)
    ∧ (name = PyVal.str "disconnect" → out.result = "success" →
        updateConn name out conn = false)
    ∧ (name ≠ PyVal.str "connect" → name ≠ PyVal.str "disconnect" →
        updateConn name out conn = conn)
    ∧ (out.result ≠ "success" → updateConn name out conn = conn) := by
  refine ⟨?_, ?_, ?_, ?_⟩
  · rintro rfl hs
    simp [updateConn, isStrEq, hs]
  · rintro rfl hs
    simp [updateConn, isStrEq, hs]
  · intro h1 h2
    simp [updateConn, isStrEq_of_ne name "connect" h1,
      isStrEq_of_ne name "disconnect" h2]
  · exact updateConn_of_not_success name out conn

/-- C4 witness: a successful `connect` against a registry whose `connect`
tool succeeds flips the flag from `false` to `true`. -/
theorem C4_connection_flag_witness :
    updateConn (PyVal.str "connect") ⟨"success", PyVal.str "ok"⟩ false = true :=
  (C4_connection_flag_update
      [("connect", fun _ => Except.ok ⟨"success", PyVal.str "ok"⟩)]
      (PyVal.str "connect") (PyVal.dict []) ⟨"success", PyVal.str "ok"⟩ false rfl).1
    rfl rfl

/-! ## C5 -/

/-- C5: an action naming an unregistered tool short-circuits to
`{failed, "Unknown tool: <name>"}` without invoking any capability (the
outcome is fixed before any tool is consulted), and the remaining actions
of the plan still run, from an unchanged connection flag. -/
theorem C5_unknown_tool (reg : Registry) (n : String) (p : PyVal)
    (h : lookupTool reg n = Option.none) :
    execute_tool reg (PyVal.str n) p =
      Except.ok ⟨"failed", PyVal.str ("Unknown tool: " ++ n)⟩
    ∧ ∀ (kvs : List (String × PyVal)) (rest : List PyVal) (conn : Bool),
        pyDictGet kvs "name" PyVal.none = PyVal.str n →
        run_actions reg (PyVal.dict kvs :: rest) conn =
          ⟨(PyVal.str n, ⟨"failed", PyVal.str ("Unknown tool: " ++ n)⟩)
              :: (run_actions reg rest conn).results,
            (run_actions reg rest conn).conn,
            (run_actions reg rest conn).err⟩ := by
  have hexec : execute_tool reg (PyVal.str n) p =
      Except.ok ⟨"failed", PyVal.str ("Unknown tool: " ++ n)⟩ := by
    simp [execute_tool, h]
  refine ⟨hexec, ?_⟩
  intro kvs rest conn hname
  have hupd : updateConn (PyVal.str n)
      ⟨"failed", PyVal.str ("Unknown tool: " ++ n)⟩ conn = conn :=
    updateConn_of_not_success _ _ _ (by simp)
  simp [run_actions, pyGetAttr, hname, execute_tool, h, hupd]

/-- C5 witness: the plan `[{name:'bogus'}, {name:'alsoBogus'}]` against the
empty registry yields the unknown-tool outcome for the first step and
still executes the second. -/
theorem C5_unknown_tool_witness :
    run_actions ([] : Registry)
        [PyVal.dict [("name", PyVal.str "bogus")],
         PyVal.dict [("name", PyVal.str "alsoBogus")]] false =
      ⟨[(PyVal.str "bogus", ⟨"failed", PyVal.str "Unknown tool: bogus"⟩),
        (PyVal.str "alsoBogus", ⟨"failed", PyVal.str "Unknown tool: alsoBogus"⟩)],
        false, Option.none⟩ := by
  rw [(C5_unknown_tool [] "bogus" (PyVal.dict []) rfl).2
      [("name", PyVal.str "bogus")] [PyVal.dict [("name", PyVal.str "alsoBogus")]] false rfl]
  rfl

/-! ## C6 -/

/-- C6: when a registered tool's invocation raises, `execute_tool` catches
the exception and converts it to
`{failed, "Error executing <name>: <message>"}`, and the plan continues
past the failed step with an unchanged connection flag. -/
theorem C6_capability_error_caught (reg : Registry) (n : String) (tool : ToolFun)
    (p : PyVal) (e : String)
    (h1 : lookupTool reg n = some tool) (h2 : tool p = Except.error e) :
    execute_tool reg (PyVal.str n) p =
      Except.ok ⟨"failed", PyVal.str ("Error executing " ++ n ++ ": " ++ e)⟩
    ∧ ∀ (kvs : List (String × PyVal)) (rest : List PyVal) (conn : Bool),
        pyDictGet kvs "name" PyVal.none = PyVal.str n →
        pyDictGet kvs "parameters" (PyVal.dict []) = p →
        run_actions reg (PyVal.dict kvs :: rest) conn =
          ⟨(PyVal.str n, ⟨"failed", PyVal.str ("Error executing " ++ n ++ ": " ++ e)⟩)
              :: (run_actions reg rest conn).results,
            (run_actions reg rest conn).conn,
            (run_actions reg rest conn).err⟩ := by
  have hexec : execute_tool reg (PyVal.str n) p =
      Except.ok ⟨"failed", PyVal.str ("Error executing " ++ n ++ ": " ++ e)⟩ := by
    simp [execute_tool, h1, h2]
  refine ⟨hexec, ?_⟩
  intro kvs rest conn hname hparams
  have hupd : updateConn (PyVal.str n)
      ⟨"failed", PyVal.str ("Error executing " ++ n ++ ": " ++ e)⟩ conn = conn :=
    updateConn_of_not_success _ _ _ (by simp)
  simp [run_actions, pyGetAttr, hname, hparams, hexec, hupd]

/-- C6 witness: a registry whose `boom` tool raises `kaput` yields the
converted failed outcome. -/
theorem C6_capability_error_witness :
    execute_tool [("boom", fun _ => Except.error "kaput")] (PyVal.str "boom")
        (PyVal.dict []) =
      Except.ok ⟨"failed", PyVal.str "Error executing boom: kaput"⟩ :=
  (C6_capability_error_caught [("boom", fun _ => Except.error "kaput")] "boom"
      (fun _ => Except.error "kaput") (PyVal.dict []) "kaput" rfl rfl).1

/-! ## C9 -/

/-- C9: every session-requiring tool of `src/ib.py`, invoked while no
broker session is active, returns the `failed` outcome
`"Not connected to IB TWS. Use 'connect' first."` (as a value — for
`reqMktData`/`placeOrder` an `Except.ok`, i.e. nothing is raised),
whatever the external broker calls would have done. -/
theorem C9_not_connected_guard (ib : Option IBHandle)
    (h : sessionActive ib = false)
    (extQ : Except String (List PyVal)) (sym : String)
    (q1 : Except String Unit) (t1 : Except String TickerData)
    (q2 : Except String Unit) (tr : Except String (PyVal × PyVal))
    (extP extA : Except String (List PyVal)) :
    qualifyContracts ib extQ = notConnectedOutcome
    ∧ reqMktData ib sym q1 t1 = Except.ok notConnectedOutcome
    ∧ placeOrder ib q2 tr = Except.ok notConnectedOutcome
    ∧ positionsTool ib extP = notConnectedOutcome
    ∧ accountValuesTool ib extA = notConnectedOutcome := by
  simp [qualifyContracts, reqMktData, placeOrder, positionsTool, accountValuesTool, h]

/-- C9 witness: with no handle at all (`ib = None`), `qualifyContracts` and
`reqMktData` return the not-connected outcome even when the external
calls would have failed loudly. -/
theorem C9_not_connected_witness :
    qualifyContracts Option.none (Except.error "network down") = notConnectedOutcome
    ∧ reqMktData Option.none "AAPL" (Except.error "network down")
        (Except.error "network down") = Except.ok notConnectedOutcome :=
  ⟨(C9_not_connected_guard Option.none rfl (Except.error "network down") "AAPL"
      (Except.error "network down") (Except.error "network down")
      (Except.ok ()) (Except.ok (PyVal.none, PyVal.none))
      (Except.ok []) (Except.ok [])).1,
   (C9_not_connected_guard Option.none rfl (Except.error "network down") "AAPL"
      (Except.error "network down") (Except.error "network down")
      (Except.ok ()) (Except.ok (PyVal.none, PyVal.none))
      (Except.ok []) (Except.ok [])).2.1⟩

/-! ## C10 -/

/-- C10: `disconnect()` with no active session (no handle, or a handle
that is not connected) returns `{failed, "No active connection to
disconnect"}` as a value, leaves the broker handle as it was, and —
because the outcome is not a success — the dispatcher's state rule leaves
the session-loop connection flag unchanged. -/
theorem C10_disconnect_inactive (ib : Option IBHandle)
    (h : sessionActive ib = false) (conn : Bool) :
    (disconnectTool ib).1 = ⟨"failed", PyVal.str "No active connection to disconnect"⟩
    ∧ (disconnectTool ib).2 = ib
    ∧ updateConn (PyVal.str "disconnect") (disconnectTool ib).1 conn = conn := by
  cases ib with
  | none =>
    refine ⟨rfl, rfl, ?_⟩
    exact updateConn_of_not_success _ _ _ (by simp [disconnectTool])
  | some hd =>
    have hc : hd.isConnected = false := by simpa [sessionActive] using h
    refine ⟨?_, ?_, ?_⟩
    · simp [disconnectTool, hc]
    · simp [disconnectTool, hc]
    · exact updateConn_of_not_success _ _ _ (by simp [disconnectTool, hc])

/-- C10 witness: at `ib = None` and a connection flag that is (stalely)
`true`, the failed disconnect leaves the flag `true`. -/
theorem C10_disconnect_inactive_witness :
    (disconnectTool Option.none).1
        = ⟨"failed", PyVal.str "No active connection to disconnect"⟩
    ∧ updateConn (PyVal.str "disconnect") (disconnectTool Option.none).1 true = true :=
  ⟨(C10_disconnect_inactive Option.none rfl true).1,
   (C10_disconnect_inactive Option.none rfl true).2.2⟩

/-! ## C2 -/

/-- C2: the claim says every turn-level error — *including* the
empty-response error — is caught and the session loop continues.  In the
code, `call_openai` runs *outside* the turn's `try:` block, so its
`ValueError("Empty response from streaming LLM")` terminates the session;
only errors raised from `eval` onwards (parsing and dispatch) are caught.
Amended: whenever the streamed response is non-empty after stripping, the
turn can never crash the session, and an `eval` failure in particular is
caught, reported as `Error processing response: <e>`, and leaves the
connection flag unchanged for the next turn. -/
theorem C2_turn_errors_caught (reg : Registry) (ui raw : String)
    (evalFn : String → Except String PyVal) (conn : Bool)
    (h : pyStrip raw ≠ "") :
    (∀ m, session_turn reg ui raw evalFn conn ≠ TurnFate.crashed m)
    ∧ (∀ e, pyLower ui ≠ "exit" →
        evalFn (String.mk (subTrue (subFalse (pyStrip raw).data))) = Except.error e →
        session_turn reg ui raw evalFn conn =
          TurnFate.continued ⟨[], conn, some ("Error processing response: " ++ e), false⟩) := by
  constructor
  · intro m
    unfold session_turn
    by_cases hx : pyLower ui = "exit"
    · simp [hx]
    · simp only [hx, if_false, call_openai_text, h, if_neg h]
      intro hcontra
      exact TurnFate.noConfusion hcontra
  · intro e hx heval
    unfold session_turn
    simp only [hx, if_false, call_openai_text, if_neg h]
    rw [heval]
    rfl

/-- C2 witness: a non-empty response whose `eval` raises a syntax error is
caught and reported, and the loop continues with the flag it had. -/
theorem C2_turn_errors_witness :
    session_turn ([] : Registry) "hi" "oops"
        (fun _ => Except.error "invalid syntax") true =
      TurnFate.continued
        ⟨[], true, some "Error processing response: invalid syntax", false⟩ :=
  (C2_turn_errors_caught [] "hi" "oops" (fun _ => Except.error "invalid syntax") true
      (by decide)).2 "invalid syntax" (by decide) rfl

/-- C2 counterexample: a whitespace-only streamed response makes
`call_openai` raise `ValueError("Empty response from streaming LLM")`
outside the `try:` block, terminating the session — a turn-level error
(the spec's `EmptyResponse`) that does end the session, contradicting the
claim. -/
theorem C2_counterexample :
    session_turn ([] : Registry) "hi" "   "
        (fun _ => Except.ok (PyVal.dict [])) false =
      TurnFate.crashed "Empty response from streaming LLM" := rfl

/-! ## C7 -/

theorem joinComma_map_renderParam (ps : List ToolParam) (h : ps ≠ []) :
    joinComma (ps.map renderParam) = describeParamsSpec ps := by
  induction ps with
  | nil => exact absurd rfl h
  | cons p ps ih =>
    cases ps with
    | nil => rfl
    | cons q qs =>
      rw [show describeParamsSpec (p :: q :: qs)
            = renderParam p ++ ", " ++ describeParamsSpec (q :: qs) from rfl]
      rw [show (p :: q :: qs).map renderParam
            = renderParam p :: (q :: qs).map renderParam from rfl]
      rw [show joinComma (renderParam p :: (q :: qs).map renderParam)
            = renderParam p ++ ", " ++ joinComma ((q :: qs).map renderParam) from ?_]
      · rw [ih (by simp)]
      · cases hqt : (q :: qs).map renderParam with
        | nil => simp at hqt
        | cons a as => rfl

theorem pyWordsAux_good (s : List Char) :
    ∀ (acc : List Char), (∀ c ∈ acc, ¬ c.isWhitespace) →
      ∀ w ∈ pyWordsAux acc s, w ≠ [] ∧ ∀ c ∈ w, ¬ c.isWhitespace := by
  induction s with
  | nil =>
    intro acc hacc w hw
    by_cases he : acc.isEmpty
    · simp [pyWordsAux, he] at hw
    · simp [pyWordsAux, he] at hw
      subst hw
      refine ⟨by simpa using he, ?_⟩
      intro c hc
      exact hacc c (List.mem_reverse.mp hc)
  | cons c cs ih =>
    intro acc hacc w hw
    by_cases hws : c.isWhitespace
    · by_cases he : acc.isEmpty
      · rw [pyWordsAux, if_pos hws, if_pos he] at hw
        exact ih [] (by simp) w hw
      · rw [pyWordsAux, if_pos hws, if_neg he] at hw
        rcases List.mem_cons.mp hw with h1 | h2
        · subst h1
          refine ⟨by simpa using he, ?_⟩
          intro d hd
          exact hacc d (List.mem_reverse.mp hd)
        · exact ih [] (by simp) w h2
    · rw [pyWordsAux, if_neg hws] at hw
      refine ih (c :: acc) ?_ w hw
      intro d hd
      rcases List.mem_cons.mp hd with h1 | h2
      · subst h1; exact hws
      · exact hacc d h2

theorem hasDoubleWs_append (w t : List Char)
    (hw : ∀ c ∈ w, ¬ c.isWhitespace) (ht : hasDoubleWs t = false) :
    hasDoubleWs (w ++ t) = false := by
  induction w with
  | nil => simpa using ht
  | cons c w' ih =>
    have hc : ¬ c.isWhitespace := hw c (List.mem_cons_self c w')
    have ih' := ih (fun x hx => hw x (List.mem_cons_of_mem _ hx))
    rw [List.cons_append]
    cases hwt : w' ++ t with
    | nil => simp [hasDoubleWs]
    | cons d r =>
      show hasDoubleWs (c :: d :: r) = false
      have : hasDoubleWs (d :: r) = false := by rw [← hwt]; exact ih'
      simp [hasDoubleWs, hc, this]

theorem pyJoinWords_head_not_ws (ws : List (List Char))
    (h : ∀ w ∈ ws, w ≠ [] ∧ ∀ c ∈ w, ¬ c.isWhitespace) :
    ∀ d r, pyJoinWords ws = d :: r → ¬ d.isWhitespace := by
  cases ws with
  | nil => intro d r hdr; simp [pyJoinWords] at hdr
  | cons w ws' =>
    intro d r hdr
    obtain ⟨hne, hnws⟩ := h w (List.mem_cons_self w ws')
    cases ws' with
    | nil =>
      rw [show pyJoinWords [w] = w from rfl] at hdr
      rw [hdr] at hnws
      exact hnws d (List.mem_cons_self d r)
    | cons w2 ws'' =>
      rw [show pyJoinWords (w :: w2 :: ws'')
            = w ++ ' ' :: pyJoinWords (w2 :: ws'') from rfl] at hdr
      cases w with
      | nil => exact absurd rfl hne
      | cons a w' =>
        rw [List.cons_append] at hdr
        injection hdr with h1 _
        exact h1 ▸ hnws a (List.mem_cons_self a w')

theorem hasDoubleWs_pyJoinWords (ws : List (List Char))
    (h : ∀ w ∈ ws, w ≠ [] ∧ ∀ c ∈ w, ¬ c.isWhitespace) :
    hasDoubleWs (pyJoinWords ws) = false := by
  induction ws with
  | nil => rfl
  | cons w ws' ih =>
    have hw := (h w (List.mem_cons_self w ws')).2
    have h' : ∀ x ∈ ws', x ≠ [] ∧ ∀ c ∈ x, ¬ c.isWhitespace :=
      fun x hx => h x (List.mem_cons_of_mem _ hx)
    cases ws' with
    | nil =>
      rw [show pyJoinWords [w] = w from rfl]
      simpa using hasDoubleWs_append w [] hw rfl
    | cons w2 ws'' =>
      rw [show pyJoinWords (w :: w2 :: ws'')
            = w ++ ' ' :: pyJoinWords (w2 :: ws'') from rfl]
      refine hasDoubleWs_append w _ hw ?_
      cases hj : pyJoinWords (w2 :: ws'') with
      | nil => simp [hasDoubleWs]
      | cons d r =>
        have hd : ¬ d.isWhitespace := pyJoinWords_head_not_ws _ h' d r hj
        have htail : hasDoubleWs (d :: r) = false := by rw [← hj]; exact ih h'
        simp [hasDoubleWs, hd, htail]

theorem normalize_no_double_ws (s : List Char) :
    hasDoubleWs (pyJoinWords (pyWords s)) = false :=
  hasDoubleWs_pyJoinWords _ (pyWordsAux_good s [] (by simp))

/-- C7: the schema description equals the spec's rendering
`"<name>: Parameters: <p1> (<type>[, default '<default>']), .... <description>"`
with `No parameters` substituted for an empty parameter list; the
description part is whitespace-normalized (no two adjacent whitespace
characters survive); and, the embedding being a pure function of the
capability, describing the same capability twice yields identical
strings. -/
theorem C7_schema_description (tool_name : String) (c : Capability) :
    get_tool_schema tool_name c = describeSpec tool_name c
    ∧ hasDoubleWs (normalizeWsStr (docOrDefault c.docstring)).data = false
    ∧ get_tool_schema tool_name c = get_tool_schema tool_name c := by
  refine ⟨?_, ?_, rfl⟩
  · unfold get_tool_schema describeSpec
    cases hp : c.params with
    | nil => rfl
    | cons p ps =>
      rw [show (p :: ps).isEmpty = false from rfl]
      rw [joinComma_map_renderParam (p :: ps) (by simp)]
      rfl
  · exact normalize_no_double_ws (docOrDefault c.docstring).data

/-! ## C8 -/

theorem subFalse_nil : subFalse [] = [] := by rw [subFalse]

theorem subFalse_pos (c : Char) (cs : List Char)
    (h : c = 'f' ∧ cs.take 4 = ['a', 'l', 's', 'e']) :
    subFalse (c :: cs) = 'F' :: 'a' :: 'l' :: 's' :: 'e' :: subFalse (cs.drop 4) := by
  rw [subFalse]; simp only [if_pos h]

theorem subFalse_neg (c : Char) (cs : List Char)
    (h : ¬(c = 'f' ∧ cs.take 4 = ['a', 'l', 's', 'e'])) :
    subFalse (c :: cs) = c :: subFalse cs := by
  rw [subFalse]; simp only [if_neg h]

theorem subTrue_nil : subTrue [] = [] := by rw [subTrue]

theorem subTrue_pos (c : Char) (cs : List Char)
    (h : c = 't' ∧ cs.take 3 = ['r', 'u', 'e']) :
    subTrue (c :: cs) = 'T' :: 'r' :: 'u' :: 'e' :: subTrue (cs.drop 3) := by
  rw [subTrue]; simp only [if_pos h]

theorem subTrue_neg (c : Char) (cs : List Char)
    (h : ¬(c = 't' ∧ cs.take 3 = ['r', 'u', 'e'])) :
    subTrue (c :: cs) = c :: subTrue cs := by
  rw [subTrue]; simp only [if_neg h]

theorem subBothSpec_nil : subBothSpec [] = [] := by rw [subBothSpec]

theorem subBothSpec_posF (c : Char) (cs : List Char)
    (h : c = 'f' ∧ cs.take 4 = ['a', 'l', 's', 'e']) :
    subBothSpec (c :: cs) = 'F' :: 'a' :: 'l' :: 's' :: 'e' :: subBothSpec (cs.drop 4) := by
  rw [subBothSpec]; simp only [if_pos h]

theorem subBothSpec_posT (c : Char) (cs : List Char)
    (h1 : ¬(c = 'f' ∧ cs.take 4 = ['a', 'l', 's', 'e']))
    (h2 : c = 't' ∧ cs.take 3 = ['r', 'u', 'e']) :
    subBothSpec (c :: cs) = 'T' :: 'r' :: 'u' :: 'e' :: subBothSpec (cs.drop 3) := by
  rw [subBothSpec]; simp only [if_neg h1, if_pos h2]

theorem subBothSpec_neg2 (c : Char) (cs : List Char)
    (h1 : ¬(c = 'f' ∧ cs.take 4 = ['a', 'l', 's', 'e']))
    (h2 : ¬(c = 't' ∧ cs.take 3 = ['r', 'u', 'e'])) :
    subBothSpec (c :: cs) = c :: subBothSpec cs := by
  rw [subBothSpec]; simp only [if_neg h1, if_neg h2]

theorem take_eq_cons_decomp {l : List Char} {a : Char} {r : List Char} {n : Nat}
    (h : l.take (n + 1) = a :: r) : ∃ t, l = a :: t ∧ t.take n = r := by
  cases l with
  | nil => simp at h
  | cons c cs =>
    rw [List.take_succ_cons] at h
    injection h with h1 h2
    exact ⟨cs, by rw [h1], h2⟩

theorem subFalse_take1 (x : List Char) (h : (subFalse x).take 1 = ['e']) :
    x.take 1 = ['e'] := by
  cases x with
  | nil => rw [subFalse_nil] at h; simp at h
  | cons c cs =>
    by_cases hc : c = 'f' ∧ cs.take 4 = ['a', 'l', 's', 'e']
    · rw [subFalse_pos c cs hc] at h
      simp [List.take] at h
    · rw [subFalse_neg c cs hc] at h
      simp [List.take] at h ⊢
      exact h

theorem subFalse_take2 (x : List Char) (h : (subFalse x).take 2 = ['u', 'e']) :
    x.take 2 = ['u', 'e'] := by
  cases x with
  | nil => rw [subFalse_nil] at h; simp at h
  | cons c cs =>
    by_cases hc : c = 'f' ∧ cs.take 4 = ['a', 'l', 's', 'e']
    · rw [subFalse_pos c cs hc] at h
      simp [List.take] at h
    · rw [subFalse_neg c cs hc] at h
      rw [List.take_succ_cons] at h ⊢
      injection h with h1 h2
      rw [h1]
      exact congrArg _ (subFalse_take1 cs h2)

theorem subFalse_take3 (x : List Char) (h : (subFalse x).take 3 = ['r', 'u', 'e']) :
    x.take 3 = ['r', 'u', 'e'] := by
  cases x with
  | nil => rw [subFalse_nil] at h; simp at h
  | cons c cs =>
    by_cases hc : c = 'f' ∧ cs.take 4 = ['a', 'l', 's', 'e']
    · rw [subFalse_pos c cs hc] at h
      simp [List.take] at h
    · rw [subFalse_neg c cs hc] at h
      rw [List.take_succ_cons] at h ⊢
      injection h with h1 h2
      rw [h1]
      exact congrArg _ (subFalse_take2 cs h2)

theorem subTrue_subFalse_aux :
    ∀ n (s : List Char), s.length ≤ n → subTrue (subFalse s) = subBothSpec s := by
  intro n
  induction n with
  | zero =>
    intro s hs
    have hz : s = [] := List.length_eq_zero.mp (Nat.le_zero.mp hs)
    subst hz
    rw [subFalse_nil, subTrue_nil, subBothSpec_nil]
  | succ n ih =>
    intro s hs
    cases s with
    | nil => rw [subFalse_nil, subTrue_nil, subBothSpec_nil]
    | cons c cs =>
      have hlen : cs.length ≤ n := by
        simpa using Nat.lt_succ_iff.mp (Nat.lt_of_lt_of_le (by simp) hs)
      by_cases hF : c = 'f' ∧ cs.take 4 = ['a', 'l', 's', 'e']
      · rw [subFalse_pos c cs hF, subBothSpec_posF c cs hF]
        rw [subTrue_neg 'F' _ (fun hcon => absurd hcon.1 (by decide))]
        rw [subTrue_neg 'a' _ (fun hcon => absurd hcon.1 (by decide))]
        rw [subTrue_neg 'l' _ (fun hcon => absurd hcon.1 (by decide))]
        rw [subTrue_neg 's' _ (fun hcon => absurd hcon.1 (by decide))]
        rw [subTrue_neg 'e' _ (fun hcon => absurd hcon.1 (by decide))]
        have : (cs.drop 4).length ≤ n := le_trans (by simp) hlen
        rw [ih (cs.drop 4) this]
      · by_cases hT : c = 't' ∧ cs.take 3 = ['r', 'u', 'e']
        · obtain ⟨hc, htake⟩ := hT
          subst hc
          obtain ⟨t1, rfl, h1⟩ := take_eq_cons_decomp htake
          obtain ⟨t2, rfl, h2⟩ := take_eq_cons_decomp h1
          obtain ⟨t3, rfl, _⟩ := take_eq_cons_decomp h2
          rw [subFalse_neg 't' _ (fun hcon => absurd hcon.1 (by decide))]
          rw [subFalse_neg 'r' _ (fun hcon => absurd hcon.1 (by decide))]
          rw [subFalse_neg 'u' _ (fun hcon => absurd hcon.1 (by decide))]
          rw [subFalse_neg 'e' _ (fun hcon => absurd hcon.1 (by decide))]
          rw [subTrue_pos 't' _ ⟨rfl, by simp [List.take]⟩]
          rw [subBothSpec_posT 't' _ hF ⟨rfl, by simp [List.take]⟩]
          simp only [List.drop_succ_cons, List.drop_zero]
          have : t3.length ≤ n := by
            simp at hlen
            omega
          rw [ih t3 this]
        · rw [subFalse_neg c cs hF, subBothSpec_neg2 c cs hF hT]
          have hT' : ¬(c = 't' ∧ (subFalse cs).take 3 = ['r', 'u', 'e']) := by
            rintro ⟨rfl, h3⟩
            exact hT ⟨rfl, subFalse_take3 cs h3⟩
          rw [subTrue_neg c _ hT']
          rw [ih cs hlen]

theorem subTrue_subFalse (s : List Char) : subTrue (subFalse s) = subBothSpec s :=
  subTrue_subFalse_aux s.length s le_rfl

/-- C8: for every streamed completion text that is non-empty after
stripping, the client returns the stripped text with the two sequential
`re.sub` substitutions applied, and that equals the simultaneous one-pass
replacement `subBothSpec` written from the claim's words — every
occurrence of `false` becomes `False`, every occurrence of `true` becomes
`True` (unconditionally, string values included), and every character
outside those occurrences is copied unchanged. -/
theorem C8_boolean_token_normalization (raw : String) (h : pyStrip raw ≠ "") :
    call_openai_text raw = Except.ok (String.mk (subBothSpec (pyStrip raw).data)) := by
  unfold call_openai_text
  simp only [if_neg h]
  rw [subTrue_subFalse]

/-- C8 witness: a concrete text with both tokens, one of them inside a
quoted string value, is normalized unconditionally. -/
theorem C8_boolean_token_witness :
    call_openai_text "x: 'true is false'" = Except.ok "x: 'True is False'" := by
  have h := C8_boolean_token_normalization "x: 'true is false'" (by decide)
  rw [h]
  have hstrip : pyStrip "x: 'true is false'" = "x: 'true is false'" := rfl
  rw [hstrip]
  simp [subBothSpec]
